import Mathlib

/-!
A shallow embedding of `src/arbitrage.py` (funding-rate arbitrage checker
for the Hyperliquid and Lighter venues) together with theorems settling
the specification claims.

Modelling conventions:
* Python floats are modelled as `Rat` (the claims are exactness claims on
  ideal arithmetic).
* Decoded JSON values are modelled by `PyVal`; dictionaries carry string
  keys, which is the shape every payload in this program has.
* A Python function that can raise is modelled in `Except PyErr`;
  returning `None` is `Option.none` inside the success case.
* The HTTP transport is an external collaborator: a pure function from
  the request (POST body, or GET URL) to `Option PyVal`, `none` standing
  for a failed or undecodable request, exactly the contract of
  `http_post` / `http_get` in the source (they catch their own errors and
  return `None`).

The file embeds the *effective* definitions of the module: Python
executes the whole file top to bottom, so the second `fetch_hyperliquid`
(line 179) and second `fetch_lighter` (line 206) shadow the earlier ones,
and the second assignment to `LIGHTER_API` (line 25) wins.  The
annotations `best_bid`/`best_ask` and the `mid` property at lines
171-176 sit inside the body of the first `fetch_lighter` after its
`return` statement: they are dead code and are not fields of the
`MarketSnapshot` dataclass.
-/

deriving instance DecidableEq for Except

set_option maxRecDepth 4000

namespace BotArbitrage

/-- Decoded JSON values as Python sees them. -/
inductive PyVal : Type where
  | null : PyVal
  | num (q : Rat) : PyVal
  | str (s : String) : PyVal
  | list (xs : List PyVal) : PyVal
  | dict (entries : List (String × PyVal)) : PyVal

/-- The exception kinds this program can raise or catch. -/
inductive PyErr : Type where
  | keyError : PyErr
  | valueError : PyErr
  | indexError : PyErr
  | typeError : PyErr
deriving DecidableEq, Repr

/-- Python truthiness of a decoded JSON value (`if not resp`). -/
def truthy : PyVal → Bool
  | .null => false
  | .num q => q != 0
  | .str s => s != ""
  | .list xs => !xs.isEmpty
  | .dict es => !es.isEmpty

/-- Truthiness of an `http_post`/`http_get` result (`None` is falsy). -/
def optTruthy : Option PyVal → Bool
  | Option.none => false
  | some v => truthy v

/-- First-match lookup in a string-keyed dictionary. -/
def dictLookup (k : String) : List (String × PyVal) → Option PyVal
  | [] => Option.none
  | (k', v) :: rest => if k' = k then some v else dictLookup k rest

/-- Python subscript `v[k]` with a string key: `KeyError` when a dict
lacks the key, `TypeError` when the value is not a dict. -/
def pySubscr (v : PyVal) (k : String) : Except PyErr PyVal :=
  match v with
  | .dict es =>
    match dictLookup k es with
    | some w => Except.ok w
    | Option.none => Except.error PyErr.keyError
  | _ => Except.error PyErr.typeError

/-- Python subscript `v[i]` with an integer index: `IndexError` past the
end of a list or string, `KeyError` on a (string-keyed) dict, `TypeError`
otherwise. -/
def pyIndex (v : PyVal) (i : Nat) : Except PyErr PyVal :=
  match v with
  | .list xs =>
    match xs[i]? with
    | some w => Except.ok w
    | Option.none => Except.error PyErr.indexError
  | .str s =>
    match s.toList[i]? with
    | some c => Except.ok (.str (String.mk [c]))
    | Option.none => Except.error PyErr.indexError
  | .dict _ => Except.error PyErr.keyError
  | _ => Except.error PyErr.typeError

/-- Value of a list of decimal digits. -/
def natOfDigits (ds : List Char) : Nat :=
  ds.foldl (fun n c => n * 10 + (c.toNat - 48)) 0

/-- Model of Python `float(s)` on a string: an optional sign followed by
decimal digits with at most one point, at least one digit overall
(exponent forms are not needed by any claim). `none` models
`ValueError`. -/
def parseDecimal (s : String) : Option Rat :=
  let cs := s.toList
  let signed : Int × List Char :=
    match cs with
    | '-' :: t => (-1, t)
    | '+' :: t => (1, t)
    | t => (1, t)
  let intPart := signed.2.takeWhile Char.isDigit
  let rest := signed.2.dropWhile Char.isDigit
  match rest with
  | [] =>
    if intPart.isEmpty then Option.none
    else some (mkRat (signed.1 * natOfDigits intPart) 1)
  | '.' :: frac =>
    if frac.all Char.isDigit ∧ ¬(intPart.isEmpty ∧ frac.isEmpty) then
      some (mkRat (signed.1 * natOfDigits (intPart ++ frac))
        ((10 : Nat) ^ frac.length))
    else Option.none
  | _ => Option.none

/-- Python `float(v)`: numbers pass through, strings are parsed
(`ValueError` on failure), `None` and structured values raise
`TypeError`. -/
def pyFloat (v : PyVal) : Except PyErr Rat :=
  match v with
  | .num q => Except.ok q
  | .str s =>
    match parseDecimal s with
    | some q => Except.ok q
    | Option.none => Except.error PyErr.valueError
  | _ => Except.error PyErr.typeError

/-- The `MarketSnapshot` dataclass (source lines 64-72): fields
`funding_rate` and `mid_price` only. -/
structure MarketSnapshot : Type where
  funding_rate : Rat
  mid_price : Option Rat
deriving DecidableEq, Repr

/-- The `mid` property of `MarketSnapshot`. -/
def MarketSnapshot.mid (s : MarketSnapshot) : Option Rat := s.mid_price

/-- Keyword-argument call of the `MarketSnapshot` dataclass constructor.
The generated `__init__` accepts exactly the keywords `funding_rate` and
`mid_price` (both required) and raises `TypeError` on any unexpected or
missing keyword. -/
def marketSnapshotCall (kwargs : List (String × PyVal)) :
    Except PyErr MarketSnapshot :=
  if kwargs.all (fun kv => kv.1 == "funding_rate" || kv.1 == "mid_price") then
    match dictLookup "funding_rate" kwargs, dictLookup "mid_price" kwargs with
    | some (.num fr), some .null => Except.ok ⟨fr, Option.none⟩
    | some (.num fr), some (.num q) => Except.ok ⟨fr, some q⟩
    | _, _ => Except.error PyErr.typeError
  else Except.error PyErr.typeError

/-- Effective value of `LIGHTER_API` (the second module-level assignment,
source line 25, overwrites the first). -/
def LIGHTER_API : String := "https://api.lighter.xyz/v1/public"

def DEFAULT_MARKET : String := "ETH"

def DEFAULT_POSITION_USD : Rat := 1000

/-- POST body of the first request of the effective `fetch_hyperliquid`
(source line 187). -/
def hyperFundingReq (market : String) : PyVal :=
  .dict [("type", .str "funding"), ("coin", .str market)]

/-- POST body of the second request of the effective `fetch_hyperliquid`
(source line 188). -/
def hyperBookReq (market : String) : PyVal :=
  .dict [("type", .str "l2Book"), ("coin", .str market)]

/-- GET URL of the funding request of the effective `fetch_lighter`
(source line 214). -/
def lighterFundingURL (market : String) : String :=
  LIGHTER_API ++ "/funding-rate?symbol=" ++ market

/-- GET URL of the order-book request of the effective `fetch_lighter`
(source line 215). -/
def lighterBookURL (market : String) : String :=
  LIGHTER_API ++ "/orderbook?symbol=" ++ market

/-- The exception kinds caught by the `except (KeyError, ValueError,
IndexError)` clauses of the effective adapters (source lines 199, 224).
`TypeError` is not among them. -/
def caughtByAdapter : PyErr → Bool
  | PyErr.keyError => true
  | PyErr.valueError => true
  | PyErr.indexError => true
  | PyErr.typeError => false

/-- The `try` block of the effective `fetch_hyperliquid` (source lines
193-198): extract funding rate, best bid and best ask. -/
def hyperExtract (funding_resp book_resp : PyVal) :
    Except PyErr (Rat × Rat × Rat) := do
  let fobj ← pySubscr funding_resp "funding"
  let frv ← pySubscr fobj "fundingRate"
  let funding_rate ← pyFloat frv
  let levels ← pySubscr book_resp "levels"
  let bids ← pySubscr levels "bids"
  let asks ← pySubscr levels "asks"
  let b0 ← pyIndex bids 0
  let b00 ← pyIndex b0 0
  let best_bid ← pyFloat b00
  let a0 ← pyIndex asks 0
  let a00 ← pyIndex a0 0
  let best_ask ← pyFloat a00
  pure (funding_rate, best_bid, best_ask)

/-- The `try` block of the effective `fetch_lighter` (source lines
220-223). -/
def lighterExtract (funding_resp book_resp : PyVal) :
    Except PyErr (Rat × Rat × Rat) := do
  let frv ← pySubscr funding_resp "fundingRate"
  let funding_rate ← pyFloat frv
  let bids ← pySubscr book_resp "bids"
  let b0 ← pyIndex bids 0
  let b00 ← pyIndex b0 0
  let best_bid ← pyFloat b00
  let asks ← pySubscr book_resp "asks"
  let a0 ← pyIndex asks 0
  let a00 ← pyIndex a0 0
  let best_ask ← pyFloat a00
  pure (funding_rate, best_bid, best_ask)

/-- The construction `MarketSnapshot(funding_rate=..., best_bid=...,
best_ask=...)` performed by both effective adapters (source lines 203 and
228), outside their `try` blocks. -/
def snapshotFromBidAsk (fr bb ba : Rat) : Except PyErr MarketSnapshot :=
  marketSnapshotCall
    [("funding_rate", .num fr), ("best_bid", .num bb), ("best_ask", .num ba)]

/-- Remainder of an effective adapter after its two requests, applied
to the outcome of its `try` block: on success, the
`MarketSnapshot(funding_rate=..., best_bid=..., best_ask=...)` call
(outside `try`, so its `TypeError` propagates); on an extraction
exception, `return None` when the `except (KeyError, ValueError,
IndexError)` clause catches it, propagation otherwise. -/
def adapterFinish (r : Except PyErr (Rat × Rat × Rat)) :
    Except PyErr (Option MarketSnapshot) :=
  match r with
  | Except.ok (fr, bb, ba) =>
    match snapshotFromBidAsk fr bb ba with
    | Except.ok s => Except.ok (some s)
    | Except.error e => Except.error e
  | Except.error e =>
    if caughtByAdapter e then Except.ok Option.none else Except.error e

/-- The effective `fetch_hyperliquid` (source lines 179-203).  `Except.ok
Option.none` models the Python function returning `None`; `Except.error`
models an exception escaping the function. -/
def fetch_hyperliquid (tH : PyVal → Option PyVal) (market : String) :
    Except PyErr (Option MarketSnapshot) :=
  if !optTruthy (tH (hyperFundingReq market))
      || !optTruthy (tH (hyperBookReq market)) then
    Except.ok Option.none
  else
    adapterFinish (hyperExtract ((tH (hyperFundingReq market)).getD .null)
      ((tH (hyperBookReq market)).getD .null))

/-- The effective `fetch_lighter` (source lines 206-228). -/
def fetch_lighter (tL : String → Option PyVal) (market : String) :
    Except PyErr (Option MarketSnapshot) :=
  if !optTruthy (tL (lighterFundingURL market))
      || !optTruthy (tL (lighterBookURL market)) then
    Except.ok Option.none
  else
    adapterFinish (lighterExtract ((tL (lighterFundingURL market)).getD .null)
      ((tL (lighterBookURL market)).getD .null))

/-- The two direction recommendations (source lines 271 and 273). -/
inductive Direction : Type where
  | shortHyperLongLighter : Direction
  | longHyperShortLighter : Direction
deriving DecidableEq, Repr

/-- The lines `estimate_arbitrage` prints to stdout, in order. -/
inductive OutLine : Type where
  | hyperFunding (q : Rat) : OutLine
  | lighterFunding (q : Rat) : OutLine
  | fundingDiff (d pct : Rat) : OutLine
  | avgMid (q : Rat) : OutLine
  | avgMidUnavailable : OutLine
  | positionSize (p : Rat) : OutLine
  | noOpportunity : OutLine
  | arb (dir : Direction) (profit : Rat) : OutLine
deriving DecidableEq, Repr

/-- `estimate_arbitrage` (source lines 232-278), returning the sequence
of stdout lines, or the exception it raises.  The two successive `let
avg_mid` bindings mirror the source: the guarded computation at lines
245-246 is immediately shadowed by the unguarded
`avg_mid = (hyper.mid + lighter.mid) / 2` at line 248, which raises
`TypeError` whenever either `mid` is `None`.  The second average-mid
print at line 262 formats `avg_mid` unconditionally (it too would raise
`TypeError` on `None`). -/
def estimate_arbitrage (hyper lighter : MarketSnapshot)
    (position_usd : Rat) : Except PyErr (List OutLine) := do
  let funding_diff := hyper.funding_rate - lighter.funding_rate
  let funding_diff_pct := funding_diff * 100
  let mid_values := [hyper.mid, lighter.mid].filterMap id
  let avg_mid : Option Rat :=
    if mid_values.isEmpty then Option.none
    else some (mid_values.sum / (mid_values.length : Rat))
  let avg_mid : Option Rat ←
    match hyper.mid, lighter.mid with
    | some a, some b => Except.ok (some ((a + b) / 2))
    | _, _ => Except.error PyErr.typeError
  let profit_estimate := position_usd * funding_diff
  let midLine1 :=
    match avg_mid with
    | some q => OutLine.avgMid q
    | Option.none => OutLine.avgMidUnavailable
  let midLine2 ←
    match avg_mid with
    | some q => Except.ok (OutLine.avgMid q)
    | Option.none => Except.error PyErr.typeError
  let out := [OutLine.hyperFunding hyper.funding_rate,
              OutLine.lighterFunding lighter.funding_rate,
              OutLine.fundingDiff funding_diff funding_diff_pct,
              midLine1, midLine2,
              OutLine.positionSize position_usd]
  if |funding_diff| < (1 : Rat) / 1000000 then
    return out ++ [OutLine.noOpportunity]
  else if funding_diff > 0 then
    return out ++ [OutLine.arb Direction.shortHyperLongLighter profit_estimate]
  else
    return out ++ [OutLine.arb Direction.longHyperShortLighter profit_estimate]

/-- Market argument of `main` (source line 282): `sys.argv[1]` when
present, else the default. -/
def mainMarket (argv : List String) : String :=
  if 1 < argv.length then argv.getD 1 "" else DEFAULT_MARKET

/-- Position-size argument of `main` (source lines 284-295).  Returns
the position together with whether the invalid-position warning was
printed to stderr.  The `except ValueError` recovery makes this total:
no abort is possible here. -/
def mainPosition (argv : List String) : Rat × Bool :=
  if 2 < argv.length then
    match parseDecimal (argv.getD 2 "") with
    | some v => (v, false)
    | Option.none => (DEFAULT_POSITION_USD, true)
  else (DEFAULT_POSITION_USD, false)

/-- Observable outcome of a run of `main`. -/
inductive MainOutcome : Type where
  | report (lines : List OutLine) : MainOutcome
  | failExit : MainOutcome
  | abort (e : PyErr) : MainOutcome
deriving DecidableEq, Repr

/-- `main` (source lines 281-304): `report` is a normal completion (the
estimator's stdout report was printed, process exit status 0);
`failExit` is the `sys.exit(1)` branch (diagnostic printed to stderr, no
report printed); `abort` is an exception escaping `main`.  A
`MarketSnapshot` instance is always truthy, so `if not hyper or not
lighter` tests exactly for `None`. -/
def mainRun (tH : PyVal → Option PyVal) (tL : String → Option PyVal)
    (argv : List String) : MainOutcome :=
  let market := mainMarket argv
  let position_usd := (mainPosition argv).1
  match fetch_hyperliquid tH market with
  | Except.error e => MainOutcome.abort e
  | Except.ok hopt =>
    match fetch_lighter tL market with
    | Except.error e => MainOutcome.abort e
    | Except.ok lopt =>
      match hopt, lopt with
      | some hyper, some lighter =>
        match estimate_arbitrage hyper lighter position_usd with
        | Except.ok lines => MainOutcome.report lines
        | Except.error e => MainOutcome.abort e
      | _, _ => MainOutcome.failExit

/-! ## Claim C1 -/

/-- C1: the spec says the average mid price is the mean when both
snapshots carry a mid price, the single value when exactly one does, and
absent (not an error or crash) when neither does.  The code agrees on
the both-present case, but the unguarded recomputation
`avg_mid = (hyper.mid + lighter.mid) / 2` at source line 248 raises
`TypeError` in the one-present and none-present cases instead of
producing a single value or an absent average. -/
theorem c1_avg_mid_behaviour :
    estimate_arbitrage ⟨1/1000, some 100⟩ ⟨2/1000, some 102⟩ 1000 =
      Except.ok [OutLine.hyperFunding (1/1000), OutLine.lighterFunding (1/500),
        OutLine.fundingDiff (-1/1000) (-1/10), OutLine.avgMid 101,
        OutLine.avgMid 101, OutLine.positionSize 1000,
        OutLine.arb Direction.longHyperShortLighter (-1)]
  ∧ estimate_arbitrage ⟨1/1000, some 100⟩ ⟨2/1000, Option.none⟩ 1000 =
      Except.error PyErr.typeError
  ∧ estimate_arbitrage ⟨1/1000, Option.none⟩ ⟨2/1000, Option.none⟩ 1000 =
      Except.error PyErr.typeError := by
  refine ⟨?_, ?_, ?_⟩ <;> with_unfolding_all decide

/-! ## Claim C2 -/

/-- Transport for C2, Hyperliquid side: the funding request carries a
valid numeric funding rate, the book request returns a truthy payload
with no usable order book (no `levels`). -/
def c2TH : PyVal → Option PyVal := fun req =>
  match req with
  | .dict [("type", .str t), ("coin", .str c)] =>
    if c = "ETH" ∧ t = "funding" then
      some (.dict [("funding", .dict [("fundingRate", .num 2)])])
    else if c = "ETH" ∧ t = "l2Book" then
      some (.dict [("status", .str "maintenance")])
    else Option.none
  | _ => Option.none

/-- Transport for C2, Lighter side: valid numeric funding rate, truthy
book payload with no `bids`/`asks`. -/
def c2TL : String → Option PyVal := fun url =>
  if url = lighterFundingURL "ETH" then
    some (.dict [("fundingRate", .str "0.001")])
  else if url = lighterBookURL "ETH" then
    some (.dict [("status", .str "maintenance")])
  else Option.none

/-- C2: the spec says an adapter that sees a valid numeric funding rate
but no usable order book still succeeds, returning a snapshot with
`mid_price` absent.  The effective adapters instead return `None` (a
failure): their `try` blocks require `levels`/`bids`/`asks`, the
`KeyError` is caught, and the function returns `None`. -/
theorem c2_price_not_optional :
    fetch_hyperliquid c2TH "ETH" = Except.ok Option.none
  ∧ fetch_lighter c2TL "ETH" = Except.ok Option.none := by
  refine ⟨?_, ?_⟩ <;> decide

/-! ## Claim C3 -/

/-- Transport for C3, Hyperliquid side: the funding response is a list,
so `funding_resp["funding"]` is a string-subscript of a list — a
`TypeError`, which the adapter's `except (KeyError, ValueError,
IndexError)` clause does not catch. -/
def c3TH : PyVal → Option PyVal := fun req =>
  match req with
  | .dict [("type", .str t), ("coin", .str c)] =>
    if c = "ETH" ∧ t = "funding" then
      some (.list [.num 1])
    else if c = "ETH" ∧ t = "l2Book" then
      some (.dict [("levels", .dict [("bids", .list [.list [.str "100.0"]]),
        ("asks", .list [.list [.str "101.0"]])])])
    else Option.none
  | _ => Option.none

/-- Transport for C3, Lighter side: `fundingRate` is present but `null`,
so `float(None)` raises `TypeError`, uncaught by the adapter. -/
def c3TL : String → Option PyVal := fun url =>
  if url = lighterFundingURL "ETH" then
    some (.dict [("fundingRate", .null)])
  else if url = lighterBookURL "ETH" then
    some (.dict [("bids", .list [.list [.str "100.0"]]),
      ("asks", .list [.list [.str "101.0"]])])
  else Option.none

/-- C3: the spec says every type/shape mismatch during field extraction
yields a typed failure result, never an unhandled abort.  The effective
adapters catch only `(KeyError, ValueError, IndexError)`: a shape
mismatch that raises `TypeError` (a non-dict payload, or a `null`
funding-rate field passed to `float`) escapes the adapter unhandled. -/
theorem c3_typeerror_escapes :
    fetch_hyperliquid c3TH "ETH" = Except.error PyErr.typeError
  ∧ fetch_lighter c3TL "ETH" = Except.error PyErr.typeError := by
  refine ⟨?_, ?_⟩ <;> decide

/-! ## Claim C4 -/

/-- C4: the spec says `funding_diff = A − B` exactly and direction
"none" is reported iff `|funding_diff| < 1e-6`.  That holds on runs that
complete (second through fourth conjuncts, including both signed
directions), but on snapshots without mid prices the estimator raises
`TypeError` at source line 248 before reaching the direction logic, so
with `funding_diff = 0` no "no opportunity" report is produced (first
conjunct). -/
theorem c4_direction_logic :
    estimate_arbitrage ⟨1/100, Option.none⟩ ⟨1/100, Option.none⟩ 1000 =
      Except.error PyErr.typeError
  ∧ estimate_arbitrage ⟨1/100, some 100⟩ ⟨1/100, some 100⟩ 1000 =
      Except.ok [OutLine.hyperFunding (1/100), OutLine.lighterFunding (1/100),
        OutLine.fundingDiff 0 0, OutLine.avgMid 100, OutLine.avgMid 100,
        OutLine.positionSize 1000, OutLine.noOpportunity]
  ∧ estimate_arbitrage ⟨1/100, some 100⟩ ⟨1/200, some 100⟩ 1000 =
      Except.ok [OutLine.hyperFunding (1/100), OutLine.lighterFunding (1/200),
        OutLine.fundingDiff (1/200) (1/2), OutLine.avgMid 100,
        OutLine.avgMid 100, OutLine.positionSize 1000,
        OutLine.arb Direction.shortHyperLongLighter 5]
  ∧ estimate_arbitrage ⟨1/200, some 100⟩ ⟨1/100, some 100⟩ 1000 =
      Except.ok [OutLine.hyperFunding (1/200), OutLine.lighterFunding (1/100),
        OutLine.fundingDiff (-1/200) (-1/2), OutLine.avgMid 100,
        OutLine.avgMid 100, OutLine.positionSize 1000,
        OutLine.arb Direction.longHyperShortLighter (-5)] := by
  refine ⟨?_, ?_, ?_, ?_⟩ <;> with_unfolding_all decide

/-! ## Claim C5 -/

/-- C5: the spec says `profit_estimate = P × funding_diff`, that `P = 0`
yields a profit estimate of 0, and that the estimator does not crash on
a zero position size.  With both mid prices present that is what the
code computes (first conjunct); but with a zero position size and
absent mid prices the estimator still raises `TypeError` at source line
248, producing no profit estimate at all (second conjunct). -/
theorem c5_profit_estimate :
    estimate_arbitrage ⟨1/100, some 100⟩ ⟨1/200, some 100⟩ 0 =
      Except.ok [OutLine.hyperFunding (1/100), OutLine.lighterFunding (1/200),
        OutLine.fundingDiff (1/200) (1/2), OutLine.avgMid 100,
        OutLine.avgMid 100, OutLine.positionSize 0,
        OutLine.arb Direction.shortHyperLongLighter 0]
  ∧ estimate_arbitrage ⟨1/100, Option.none⟩ ⟨1/200, Option.none⟩ 0 =
      Except.error PyErr.typeError := by
  refine ⟨?_, ?_⟩ <;> with_unfolding_all decide

/-! ## Claim C6 -/

/-- Transport for C6: the venue serves valid data for requests that
spell the symbol "ETH" and recognizes nothing else (in particular not
"eth", which the effective adapter forwards verbatim). -/
def c6T : PyVal → Option PyVal := fun req =>
  match req with
  | .dict [("type", .str t), ("coin", .str c)] =>
    if c = "ETH" ∧ t = "funding" then
      some (.dict [("funding", .dict [("fundingRate", .str "0.001")])])
    else if c = "ETH" ∧ t = "l2Book" then
      some (.dict [("levels", .dict [("bids", .list [.list [.str "100.5"]]),
        ("asks", .list [.list [.str "101.5"]])])])
    else Option.none
  | _ => Option.none

/-- C6: the spec says symbol lookup is case-insensitive because adapters
normalize the symbol to uppercase before comparison.  The effective
adapters do not normalize: they embed the symbol verbatim in the
outbound request and never compare symbols locally, so "eth" and "ETH"
issue different requests and can produce different outcomes against the
same venue — and neither outcome is a snapshot. -/
theorem c6_case_sensitivity :
    fetch_hyperliquid c6T "eth" = Except.ok Option.none
  ∧ fetch_hyperliquid c6T "ETH" = Except.error PyErr.typeError := by
  refine ⟨?_, ?_⟩ <;> decide

/-! ## Claim C7 -/

/-- Transport for C7, Hyperliquid side: fully valid funding and book
payloads for "ETH". -/
def c7TH : PyVal → Option PyVal := fun req =>
  match req with
  | .dict [("type", .str t), ("coin", .str c)] =>
    if c = "ETH" ∧ t = "funding" then
      some (.dict [("funding", .dict [("fundingRate", .str "0.001")])])
    else if c = "ETH" ∧ t = "l2Book" then
      some (.dict [("levels", .dict [("bids", .list [.list [.str "100.5"]]),
        ("asks", .list [.list [.str "101.5"]])])])
    else Option.none
  | _ => Option.none

/-- Transport for C7, Lighter side: fully valid funding and book
payloads for "ETH". -/
def c7TL : String → Option PyVal := fun url =>
  if url = lighterFundingURL "ETH" then
    some (.dict [("fundingRate", .str "0.002")])
  else if url = lighterBookURL "ETH" then
    some (.dict [("bids", .list [.list [.str "100.5"]]),
      ("asks", .list [.list [.str "101.5"]])])
  else Option.none

/-- C7: the spec says a run in which both adapters succeed invokes the
estimator and exits 0 (and only adapter failures lead to exit 1).  On
fully valid venue payloads the program instead dies with an unhandled
`TypeError` raised inside `fetch_hyperliquid`'s snapshot construction:
no report is printed, and the exit is neither the clean status 0 nor the
diagnosed status 1. -/
theorem c7_valid_run_aborts :
    mainRun c7TH c7TL ["arbitrage.py", "ETH", "1000"] =
      MainOutcome.abort PyErr.typeError := by
  decide

/-! ## Claim C8 -/

/-- C8: when a third command-line argument is given but does not parse
as a number, `main` substitutes the default 1000.0 and prints a warning
to stderr (the Boolean component); when it is absent the default is used
silently.  `mainPosition` is a total function: the `except ValueError`
recovery means no abort is possible on this condition. -/
theorem c8_position_fallback (argv : List String) :
    (2 < argv.length → parseDecimal (argv.getD 2 "") = Option.none →
      mainPosition argv = (DEFAULT_POSITION_USD, true))
  ∧ (argv.length ≤ 2 → mainPosition argv = (DEFAULT_POSITION_USD, false)) := by
  constructor
  · intro hlen hparse
    rw [List.getD_eq_getElem?_getD, List.getElem?_eq_getElem hlen] at hparse
    simp only [Option.getD_some] at hparse
    simp [mainPosition, hlen, hparse]
  · intro hlen
    have : ¬ 2 < argv.length := by omega
    simp [mainPosition, this]

/-- Witness for C8 at a concrete invocation: `"abc"` does not parse, so
the default is substituted with a warning. -/
theorem c8_position_fallback_witness :
    2 < (["arbitrage.py", "ETH", "abc"] : List String).length
  ∧ parseDecimal ((["arbitrage.py", "ETH", "abc"] : List String).getD 2 "")
      = Option.none
  ∧ mainPosition ["arbitrage.py", "ETH", "abc"] = (DEFAULT_POSITION_USD, true) :=
  ⟨by decide, by decide,
    (c8_position_fallback ["arbitrage.py", "ETH", "abc"]).1
      (by decide) (by decide)⟩

/-! ## Claim C9 -/

/-- The dataclass call with keywords `best_bid`/`best_ask` always raises
`TypeError`: the generated constructor accepts only `funding_rate` and
`mid_price`. -/
lemma snapshotFromBidAsk_typeError (fr bb ba : Rat) :
    snapshotFromBidAsk fr bb ba = Except.error PyErr.typeError := rfl

/-- A successful extraction always ends in the constructor `TypeError`. -/
lemma adapterFinish_ok (v : Rat × Rat × Rat) :
    adapterFinish (Except.ok v) = Except.error PyErr.typeError := by
  obtain ⟨fr, bb, ba⟩ := v
  rfl

/-- After the two requests, an effective adapter can only return `None`
or raise: never a snapshot. -/
lemma adapterFinish_ne_snapshot (r : Except PyErr (Rat × Rat × Rat))
    (s : MarketSnapshot) : adapterFinish r ≠ Except.ok (some s) := by
  intro h
  rcases r with e | v
  · unfold adapterFinish at h
    rcases he : caughtByAdapter e <;> simp [he] at h
  · rw [adapterFinish_ok v] at h
    exact absurd h (by simp)

/-- C9: whenever both transport calls of an effective adapter return
truthy payloads and the `try`-block extraction succeeds, the adapter
raises `TypeError` at the `MarketSnapshot(funding_rate=..., best_bid=...,
best_ask=...)` construction (which the dataclass does not accept, and
which sits outside the exception handler); consequently neither
effective adapter can ever return a successful snapshot, for any
transport, market or snapshot value. -/
theorem c9_adapters_never_return_snapshot (tH : PyVal → Option PyVal)
    (tL : String → Option PyVal) (m : String) :
    (∀ v, optTruthy (tH (hyperFundingReq m)) = true →
      optTruthy (tH (hyperBookReq m)) = true →
      hyperExtract ((tH (hyperFundingReq m)).getD .null)
        ((tH (hyperBookReq m)).getD .null) = Except.ok v →
      fetch_hyperliquid tH m = Except.error PyErr.typeError)
  ∧ (∀ v, optTruthy (tL (lighterFundingURL m)) = true →
      optTruthy (tL (lighterBookURL m)) = true →
      lighterExtract ((tL (lighterFundingURL m)).getD .null)
        ((tL (lighterBookURL m)).getD .null) = Except.ok v →
      fetch_lighter tL m = Except.error PyErr.typeError)
  ∧ (∀ s, fetch_hyperliquid tH m ≠ Except.ok (some s))
  ∧ (∀ s, fetch_lighter tL m ≠ Except.ok (some s)) := by
  refine ⟨?_, ?_, ?_, ?_⟩
  · intro v h1 h2 hex
    unfold fetch_hyperliquid
    rw [h1, h2]
    simp only [Bool.not_true, Bool.or_self, Bool.false_eq_true, if_false]
    rw [hex, adapterFinish_ok]
  · intro v h1 h2 hex
    unfold fetch_lighter
    rw [h1, h2]
    simp only [Bool.not_true, Bool.or_self, Bool.false_eq_true, if_false]
    rw [hex, adapterFinish_ok]
  · intro s h
    unfold fetch_hyperliquid at h
    split at h
    · exact absurd h (by simp)
    · exact adapterFinish_ne_snapshot _ s h
  · intro s h
    unfold fetch_lighter at h
    split at h
    · exact absurd h (by simp)
    · exact adapterFinish_ne_snapshot _ s h

/-- Transport for the C9 witness, Hyperliquid side: valid payloads. -/
def c9TH : PyVal → Option PyVal := fun req =>
  match req with
  | .dict [("type", .str t), ("coin", .str c)] =>
    if c = "ETH" ∧ t = "funding" then
      some (.dict [("funding", .dict [("fundingRate", .num 2)])])
    else if c = "ETH" ∧ t = "l2Book" then
      some (.dict [("levels", .dict [("bids", .list [.list [.num 100]]),
        ("asks", .list [.list [.num 101]])])])
    else Option.none
  | _ => Option.none

/-- Transport for the C9 witness, Lighter side: valid payloads. -/
def c9TL : String → Option PyVal := fun url =>
  if url = lighterFundingURL "ETH" then
    some (.dict [("fundingRate", .num 3)])
  else if url = lighterBookURL "ETH" then
    some (.dict [("bids", .list [.list [.num 100]]),
      ("asks", .list [.list [.num 101]])])
  else Option.none

/-- Witness for C9: against fully valid concrete payloads, both
effective adapters end in the constructor `TypeError`. -/
theorem c9_adapters_never_return_snapshot_witness :
    fetch_hyperliquid c9TH "ETH" = Except.error PyErr.typeError
  ∧ fetch_lighter c9TL "ETH" = Except.error PyErr.typeError :=
  ⟨(c9_adapters_never_return_snapshot c9TH c9TL "ETH").1 (2, 100, 101)
      (by decide) (by decide) (by decide),
   (c9_adapters_never_return_snapshot c9TH c9TL "ETH").2.1 (3, 100, 101)
      (by decide) (by decide) (by decide)⟩

/-! ## Claim C10 -/

/-- C10: the unguarded recomputation `avg_mid = (hyper.mid +
lighter.mid) / 2` at source line 248 raises `TypeError` whenever either
snapshot's mid price is absent, so the "Avg mid price: unavailable"
branch is unreachable; and on every non-raising completion both mids
were present and the average-mid-price line appears exactly twice with
the same value (the mean), with the unavailable line never printed. -/
theorem c10_unguarded_avg_mid (hyper lighter : MarketSnapshot) (p : Rat) :
    ((hyper.mid = Option.none ∨ lighter.mid = Option.none) →
      estimate_arbitrage hyper lighter p = Except.error PyErr.typeError)
  ∧ (∀ out, estimate_arbitrage hyper lighter p = Except.ok out →
      ∃ a b, hyper.mid = some a ∧ lighter.mid = some b ∧
        List.count (OutLine.avgMid ((a + b) / 2)) out = 2 ∧
        OutLine.avgMidUnavailable ∉ out) := by
  obtain ⟨f1, m1⟩ := hyper
  obtain ⟨f2, m2⟩ := lighter
  constructor
  · intro hnone
    rcases m1 with _ | a
    · rfl
    · rcases m2 with _ | b
      · rfl
      · rcases hnone with h | h <;> simp [MarketSnapshot.mid] at h
  · intro out hok
    rcases m1 with _ | a
    · have herr : estimate_arbitrage ⟨f1, Option.none⟩ ⟨f2, m2⟩ p =
          Except.error PyErr.typeError := rfl
      rw [herr] at hok
      cases hok
    · rcases m2 with _ | b
      · have herr : estimate_arbitrage ⟨f1, some a⟩ ⟨f2, Option.none⟩ p =
            Except.error PyErr.typeError := rfl
        rw [herr] at hok
        cases hok
      · refine ⟨a, b, rfl, rfl, ?_⟩
        have hok2 :
            (if |f1 - f2| < (1 : Rat) / 1000000 then
              Except.ok (ε := PyErr)
                [OutLine.hyperFunding f1, OutLine.lighterFunding f2,
                 OutLine.fundingDiff (f1 - f2) ((f1 - f2) * 100),
                 OutLine.avgMid ((a + b) / 2), OutLine.avgMid ((a + b) / 2),
                 OutLine.positionSize p, OutLine.noOpportunity]
            else if f1 - f2 > 0 then
              Except.ok
                [OutLine.hyperFunding f1, OutLine.lighterFunding f2,
                 OutLine.fundingDiff (f1 - f2) ((f1 - f2) * 100),
                 OutLine.avgMid ((a + b) / 2), OutLine.avgMid ((a + b) / 2),
                 OutLine.positionSize p,
                 OutLine.arb Direction.shortHyperLongLighter (p * (f1 - f2))]
            else
              Except.ok
                [OutLine.hyperFunding f1, OutLine.lighterFunding f2,
                 OutLine.fundingDiff (f1 - f2) ((f1 - f2) * 100),
                 OutLine.avgMid ((a + b) / 2), OutLine.avgMid ((a + b) / 2),
                 OutLine.positionSize p,
                 OutLine.arb Direction.longHyperShortLighter (p * (f1 - f2))]) =
            Except.ok out := hok
        split at hok2 <;>
          [skip; split at hok2] <;>
          · obtain rfl : _ = out := Except.ok.inj hok2
            constructor
            · simp [List.count_cons]
            · simp

/-- Witness for C10: a run with an absent mid price raises `TypeError`;
a run with both mids present prints the average line twice with the
mean, never the unavailable line. -/
theorem c10_unguarded_avg_mid_witness :
    estimate_arbitrage ⟨1/2, Option.none⟩ ⟨1/3, some 5⟩ 7 =
      Except.error PyErr.typeError
  ∧ (∃ a b, (MarketSnapshot.mk 2 (some 100)).mid = some a
      ∧ (MarketSnapshot.mk 3 (some 102)).mid = some b
      ∧ List.count (OutLine.avgMid ((a + b) / 2))
          [OutLine.hyperFunding 2, OutLine.lighterFunding 3,
           OutLine.fundingDiff (-1) (-100), OutLine.avgMid 101,
           OutLine.avgMid 101, OutLine.positionSize 7,
           OutLine.arb Direction.longHyperShortLighter (-7)] = 2
      ∧ OutLine.avgMidUnavailable ∉
          [OutLine.hyperFunding 2, OutLine.lighterFunding 3,
           OutLine.fundingDiff (-1) (-100), OutLine.avgMid 101,
           OutLine.avgMid 101, OutLine.positionSize 7,
           OutLine.arb Direction.longHyperShortLighter (-7)]) :=
  ⟨(c10_unguarded_avg_mid ⟨1/2, Option.none⟩ ⟨1/3, some 5⟩ 7).1 (Or.inl rfl),
   (c10_unguarded_avg_mid ⟨2, some 100⟩ ⟨3, some 102⟩ 7).2
     [OutLine.hyperFunding 2, OutLine.lighterFunding 3,
      OutLine.fundingDiff (-1) (-100), OutLine.avgMid 101,
      OutLine.avgMid 101, OutLine.positionSize 7,
      OutLine.arb Direction.longHyperShortLighter (-7)]
     (by with_unfolding_all decide)⟩

end BotArbitrage
